import Mathlib

/-!
Shallow embedding of the incremental OneNote export engine
(src/onenote_exporter/exporter.py, db.py) and proofs about its
change-detection, catalog-upsert, aggregation and reconciliation logic.

Page bodies and artifact files are modelled as lists of characters
(`Text`).  The three helpers the engine calls but does not define --
`hashlib.sha256(...).hexdigest()` (via `DBManager.hash_content`),
`datetime.fromisoformat` (timestamps mapped onto an integer timeline)
and `utils.slugify` (file naming, out of scope per the spec) -- are
kept as parameters of a `Ctx` record; every theorem quantifies over
them, and concrete instances are supplied for witnesses.
-/

set_option maxRecDepth 100000

namespace ONE

/-- Page bodies and file contents, modelled as character lists. -/
abbrev Text := List Char

/-- Coerce a string literal to `Text`. -/
def str (s : String) : Text := s.data

/-- The ASCII whitespace characters recognised by Python `str.strip` /
`str.split()` (the engine only feeds it ASCII-spaced markdown). -/
def isSpace (c : Char) : Bool :=
  c == ' ' || c == '\t' || c == '\n' || c == '\r' || c == '\x0b' || c == '\x0c'

/-- Python `s.strip()`: drop whitespace from both ends. -/
def pyStrip (s : Text) : Text :=
  ((s.dropWhile isSpace).reverse.dropWhile isSpace).reverse

/-- Python `s.replace("\n", " ")` for one-character patterns. -/
def replNl (s : Text) : Text := s.map fun c => if c = '\n' then ' ' else c

/-- Python `"\n".join(lines)`. -/
def joinNL (lines : List Text) : Text := List.intercalate (str "\n") lines

/-- Accumulator-based splitter behind `splitlines`. -/
def splitlinesAux (acc : Text) : Text → List Text
  | [] => [acc.reverse]
  | c :: rest =>
    if c = '\n' then
      acc.reverse :: (match rest with | [] => [] | _ :: _ => splitlinesAux [] rest)
    else
      splitlinesAux (c :: acc) rest

/-- Python `s.splitlines()` for `\n`-separated text (the engine writes
artifacts with `\n` line endings only): no trailing empty line for a
trailing newline, and the empty string yields no lines. -/
def splitlines : Text → List Text
  | [] => []
  | c :: rest => splitlinesAux [] (c :: rest)

/-- The tail of `splitlines`: lines strictly after the first one. -/
def restLines : Text → List Text
  | [] => []
  | c :: rest => if c = '\n' then splitlines rest else restLines rest

/-- Accumulator-based splitter behind `pySplitWs`. -/
def pySplitWsAux (acc : Text) : Text → List Text
  | [] => if acc.isEmpty then [] else [acc.reverse]
  | c :: rest =>
    if isSpace c then
      if acc.isEmpty then pySplitWsAux [] rest
      else acc.reverse :: pySplitWsAux [] rest
    else pySplitWsAux (c :: acc) rest

/-- Python `s.split()` with no argument: split on whitespace runs,
dropping empty fields; `len (pySplitWs s)` is the engine's word count. -/
def pySplitWs (s : Text) : List Text := pySplitWsAux [] s

/-- Python `s.split(sep, 1)` reported as `some (before, after)` at the
first occurrence of `sep`, or `none` when `sep` does not occur. -/
def splitOnce? (sep : Text) : Text → Option (Text × Text)
  | [] => if sep.isEmpty then some ([], []) else none
  | c :: rest =>
    if sep.isPrefixOf (c :: rest) then some ([], List.drop sep.length (c :: rest))
    else (splitOnce? sep rest).map fun q => (c :: q.1, q.2)

theorem splitlinesAux_ne_nil (s : Text) : ∀ acc : Text, splitlinesAux acc s ≠ [] := by
  induction s with
  | nil => intro acc; simp [splitlinesAux]
  | cons c rest ih =>
    intro acc
    by_cases hc : c = '\n'
    · simp [splitlinesAux, hc]
    · simpa [splitlinesAux, hc] using ih (c :: acc)

theorem splitlines_eq_nil_iff (s : Text) : splitlines s = [] ↔ s = [] := by
  cases s with
  | nil => simp [splitlines]
  | cons c rest =>
    simp only [splitlines]
    exact ⟨fun h => absurd h (splitlinesAux_ne_nil (c :: rest) []), fun h => by simp_all⟩

theorem splitlinesAux_eq (s : Text) : ∀ acc : Text,
    splitlinesAux acc s =
      (acc.reverse ++ s.takeWhile (fun c => !(c == '\n'))) :: restLines s := by
  induction s with
  | nil => intro acc; simp [splitlinesAux, restLines, List.takeWhile]
  | cons c rest ih =>
    intro acc
    by_cases hc : c = '\n'
    · subst hc
      simp only [splitlinesAux, if_pos rfl, List.takeWhile, restLines]
      cases rest with
      | nil => simp [splitlines]
      | cons d rest2 => simp [splitlines]
    · have hb : (c == '\n') = false := by simp [hc]
      simp only [splitlinesAux, if_neg hc, List.takeWhile, hb, restLines, ih (c :: acc)]
      simp

theorem splitlines_cons_eq (c : Char) (rest : Text) :
    splitlines (c :: rest) =
      ((c :: rest).takeWhile (fun d => !(d == '\n'))) :: restLines (c :: rest) := by
  simpa using splitlinesAux_eq (c :: rest) []

/-- A pattern none of whose characters is filtered out is a prefix of
`takeWhile p t` exactly when it is a prefix of `t`. -/
theorem isPrefixOf_takeWhile (pat : Text) (p : Char → Bool)
    (hpat : ∀ a ∈ pat, p a = true) :
    ∀ t : Text, pat.isPrefixOf (t.takeWhile p) = pat.isPrefixOf t := by
  induction pat with
  | nil => intro t; simp [List.isPrefixOf]
  | cons a pat' ih =>
    intro t
    cases t with
    | nil => simp [List.takeWhile, List.isPrefixOf]
    | cons b t' =>
      by_cases hb : p b = true
      · have ih' := ih (fun x hx => hpat x (List.mem_cons_of_mem a hx)) t'
        simp [List.takeWhile, hb, List.isPrefixOf, ih']
      · have hab : (a == b) = false := by
          have ha : p a = true := hpat a (List.mem_cons_self a pat')
          rcases Bool.eq_false_or_eq_true (a == b) with h | h
          · exfalso
            have : a = b := by simpa using h
            rw [this] at ha
            simp [ha] at hb
          · exact h
        simp [List.takeWhile, hb, List.isPrefixOf, hab]

/-! Artifact parsing.  Two parts of the engine re-read a written page
file and recover its body: the index-only reconciler
(exporter.py lines 199-232) and the aggregation passes
(lines 500-512 and 582-593).  Each is embedded separately, mirroring
its own code site, and the two are proved to agree. -/

/-- Front-matter stripping in the reconciler (exporter.py 198-207):
if the file starts with the block delimiter, the body is everything
after the first occurrence of the closing delimiter. -/
def reconStripFM (t : Text) : Text :=
  if (str "---\n").isPrefixOf t then
    match splitOnce? (str "\n---\n") t with
    | some q => q.2
    | none => t
  else t

/-- Front-matter stripping in the aggregation passes (exporter.py
504-506): same delimiter test, same one-shot split. -/
def aggStripFM (raw : Text) : Text :=
  if (str "---\n").isPrefixOf raw then
    match splitOnce? (str "\n---\n") raw with
    | some q => q.2
    | none => raw
  else raw

/-- Title-heading removal in the reconciler (exporter.py 226-230):
drop the first line when it is a heading, rejoining the rest. -/
def reconBodySrc (body : Text) : Text :=
  match splitlines body with
  | [] => body
  | l :: ls => if (str "# ").isPrefixOf l then joinNL ls else body

/-- Title-heading removal in the aggregation passes (exporter.py
507-510): test the body itself for the heading prefix. -/
def aggBodySrc (body : Text) : Text :=
  if (str "# ").isPrefixOf body then joinNL ((splitlines body).drop 1) else body

/-- The text the reconciler hashes and word-counts for a file. -/
def reconHashSource (t : Text) : Text := reconBodySrc (reconStripFM t)

/-- The text the aggregation passes hash and word-count for a file. -/
def aggHashSource (t : Text) : Text := aggBodySrc (aggStripFM t)

theorem reconStripFM_eq_aggStripFM (t : Text) : reconStripFM t = aggStripFM t := rfl

theorem reconBodySrc_eq_aggBodySrc (body : Text) : reconBodySrc body = aggBodySrc body := by
  cases hb : splitlines body with
  | nil =>
    have hbody : body = [] := (splitlines_eq_nil_iff body).mp hb
    subst hbody
    simp [reconBodySrc, aggBodySrc, splitlines, List.isPrefixOf]
  | cons l ls =>
    cases body with
    | nil => simp [splitlines] at hb
    | cons c rest =>
      have hsplit := splitlines_cons_eq c rest
      rw [hb] at hsplit
      have hl : l = (c :: rest).takeWhile (fun d => !(d == '\n')) := by
        exact (List.cons.injEq _ _ _ _ ▸ hsplit).1
      have hpfx : (str "# ").isPrefixOf l = (str "# ").isPrefixOf (c :: rest) := by
        rw [hl]
        exact isPrefixOf_takeWhile (str "# ") (fun d => !(d == '\n')) (by decide) (c :: rest)
      simp only [reconBodySrc, aggBodySrc, hb, hpfx, List.drop_one, List.tail_cons]

/-- The recomputed body text agrees between the reconciler and the
aggregation passes, for every file content. -/
theorem reconHashSource_eq_aggHashSource (t : Text) :
    reconHashSource t = aggHashSource t := by
  unfold reconHashSource aggHashSource
  rw [reconStripFM_eq_aggStripFM]
  exact reconBodySrc_eq_aggBodySrc (aggStripFM t)

/-! Catalog model (src/onenote_exporter/db.py).  The `pages` table is a
list of rows with unique primary key `id`; `assets` is a list of rows
keyed by `page_id`.  The SQLite `INSERT ... ON CONFLICT(id) DO UPDATE`
in `DBManager.upsert_page` overwrites every field of an existing row
(last-writer-wins); `DBManager.upsert_assets` deletes all rows of the
page and reinserts the supplied ones that have a truthy `rel_path`. -/

/-- One row of the `pages` table (db.py schema lines 33-49). -/
structure PageRow where
  id : String
  section_id : String
  notebook_id : String
  title : String
  slug : String
  created : String
  modified : String
  md_path : String
  merged_path : String
  jsonl_path : String
  content_hash : String
  word_count : Nat
  page_order : Nat
deriving DecidableEq

/-- The projection `DBManager.get_page_state` reads (db.py 62-67,
178-186). -/
structure PageState where
  id : String
  modified : String
  content_hash : String
deriving DecidableEq

/-- One collected asset record (exporter.py 89-96). -/
structure AssetRec where
  rel_path : String
  mime_type : String
  size_bytes : Nat
  sha256 : String
deriving DecidableEq

/-- One row of the `assets` table (db.py schema lines 50-58; the
autoincrement synthetic id is the list position). -/
structure AssetRow where
  page_id : String
  rel_path : String
  mime_type : String
  size_bytes : Nat
  sha256 : String
deriving DecidableEq

/-- The catalog tables the claims touch. -/
structure Catalog where
  pages : List PageRow
  assets : List AssetRow
deriving DecidableEq

/-- `DBManager.upsert_page` (db.py 109-152): replace the row with the
same primary key, overwriting all fields, or insert a new row. -/
def upsert_page (pages : List PageRow) (p : PageRow) : List PageRow :=
  if pages.any (fun r => r.id == p.id) then
    pages.map fun r => if r.id == p.id then p else r
  else pages ++ [p]

/-- `DBManager.get_page_state` (db.py 178-186). -/
def get_page_state (pages : List PageRow) (pid : String) : Option PageState :=
  (pages.find? (fun r => r.id == pid)).map fun r => ⟨r.id, r.modified, r.content_hash⟩

/-- `DBManager.upsert_assets` (db.py 154-175): delete every asset row
of the page, then insert the supplied records having truthy
`rel_path`, tagged with the page id. -/
def upsert_assets (tbl : List AssetRow) (pid : String) (assets : List AssetRec) :
    List AssetRow :=
  (tbl.filter fun a => !(a.page_id == pid)) ++
    (assets.filter fun a => !(a.rel_path == "")).map
      fun a => ⟨pid, a.rel_path, a.mime_type, a.size_bytes, a.sha256⟩

/-- The call site in the exporter (exporter.py 442-443): the upsert is
guarded by `if collected_assets:`, so it only runs for a nonempty
collected list. -/
def exporterAssetsUpdate (tbl : List AssetRow) (pid : String)
    (collected : List AssetRec) : List AssetRow :=
  if collected.isEmpty then tbl else upsert_assets tbl pid collected

/-! The engine's external helpers, kept as parameters:
`hashContent` is `DBManager.hash_content` (sha256 hexdigest of the
UTF-8 text, db.py 198-200), `parseIso` is
`datetime.fromisoformat(s.replace("Z", "+00:00"))` with parse failure
as `none` and the time line mapped onto integers, and `slugify` is
`utils.slugify` (file naming, outside the spec's scope). -/
structure Ctx where
  hashContent : Text → String
  parseIso : String → Option Int
  slugify : String → String

/-- One page descriptor plus the environment the engine would observe
for it: whether its artifact file exists, and what the content source
and converter would return if the page is fetched
(exporter.py 331-356, 385-388). -/
structure PageInput where
  id : String
  title : String
  created : String
  modified : String
  webUrl : String
  clientUrl : String
  mdPathExists : Bool
  body : Text
  assets : List AssetRec
deriving DecidableEq

/-- The artifact path `pages/{slugify(title)}-{page_id[:8]}.md`
(exporter.py 350-352). -/
def mdPathOf (ctx : Ctx) (p : PageInput) : String :=
  "pages/" ++ ctx.slugify p.title ++ "-" ++ p.id.take 8 ++ ".md"

/-- Which counter (if any) the run increments for a page
(exporter.py 174-176, 415-424). -/
inductive Counter
  | created
  | updated
  | skipped
  | nothing
deriving DecidableEq

/-- The per-page classification (exporter.py 367-424). -/
inductive StepOutcome
  | skipOutOfWindow
  | skipUnchanged
  | rendered (c : Counter)
deriving DecidableEq

/-- Everything one pass of the page loop does. -/
structure StepResult where
  outcome : StepOutcome
  fetched : Bool
  wroteArtifact : Bool
  fmContentHash : String
  db : Option Catalog
  recordAdded : Bool
deriving DecidableEq

/-- The state lookup `db.get_page_state(page_id) if db else None`
(exporter.py 357). -/
def stateOf (db : Option Catalog) (pid : String) : Option PageState :=
  match db with
  | some c => get_page_state c.pages pid
  | none => none

/-- Timestamp parsing (exporter.py 358-365): empty string or parse
failure leaves the timestamp unknown. -/
def modifiedDtOf (ctx : Ctx) (modified : String) : Option Int :=
  if modified = "" then none else ctx.parseIso modified

/-- The out-of-window test (exporter.py 367-372): a configured lower
bound, a parsed modified timestamp strictly older than it, and no
prior catalog row. -/
def outOfWindow (sinceTs modifiedDt : Option Int) (state : Option PageState) : Bool :=
  match sinceTs, modifiedDt, state with
  | some st, some md, none => decide (md < st)
  | _, _, _ => false

/-- The skip-unchanged test (exporter.py 378-382): a catalog row with
the same modified string, a truthy stored hash, and the artifact file
present. -/
def skipUnchangedCheck (state : Option PageState) (p : PageInput) : Bool :=
  match state with
  | some s => s.modified == p.modified && !(s.content_hash == "") && p.mdPathExists
  | none => false

/-- The `skip_due_to_unchanged` flag (exporter.py 377-383): a catalog
row with the same modified string (the render still proceeds when the
hash is empty or the file is gone). -/
def skipDueToUnchanged (state : Option PageState) (modified : String) : Bool :=
  match state with
  | some s => s.modified == modified
  | none => false

/-- Result of `continue` at exporter.py 373-375. -/
def skipResultOOW (db : Option Catalog) : StepResult :=
  { outcome := .skipOutOfWindow, fetched := false, wroteArtifact := false,
    fmContentHash := "", db := db, recordAdded := false }

/-- Result of `continue` at exporter.py 380-382. -/
def skipResultUnchanged (db : Option Catalog) : StepResult :=
  { outcome := .skipUnchanged, fetched := false, wroteArtifact := false,
    fmContentHash := "", db := db, recordAdded := false }

/-- The fetch/convert/write/classify/upsert tail of the loop body
(exporter.py 385-456). -/
def renderStep (ctx : Ctx) (db : Option Catalog)
    (notebookId sectionId : String) (p : PageInput) : StepResult :=
  let state := stateOf db p.id
  let skipU := skipDueToUnchanged state p.modified
  let contentHash : String :=
    match db with
    | some _ => ctx.hashContent p.body
    | none => ""
  let counter : Counter :=
    match db, state with
    | none, _ => .nothing
    | some _, some s =>
      if !(s.content_hash == "") && !(s.content_hash == contentHash) then .updated
      else if skipU then .skipped
      else .nothing
    | some _, none => .created
  let newDb : Option Catalog :=
    match db with
    | none => none
    | some c =>
      let row : PageRow :=
        { id := p.id, section_id := sectionId, notebook_id := notebookId,
          title := p.title, slug := ctx.slugify p.title,
          created := p.created, modified := p.modified,
          md_path := mdPathOf ctx p, merged_path := "", jsonl_path := "",
          content_hash := contentHash,
          word_count := (pySplitWs p.body).length, page_order := 0 }
      some { pages := upsert_page c.pages row,
             assets := exporterAssetsUpdate c.assets p.id p.assets }
  { outcome := .rendered counter, fetched := true, wroteArtifact := true,
    fmContentHash := contentHash, db := newDb, recordAdded := true }

/-- The body of the page loop (exporter.py 331-457): change detection,
then either of the two skips, or the fetch/render tail.  The artifact
write itself is represented by the `wroteArtifact` flag plus the
front-matter hash; the written text is `mdFullText` below. -/
def processPage (ctx : Ctx) (sinceTs : Option Int) (db : Option Catalog)
    (notebookId sectionId : String) (p : PageInput) : StepResult :=
  let state := stateOf db p.id
  let modifiedDt := modifiedDtOf ctx p.modified
  if outOfWindow sinceTs modifiedDt state then skipResultOOW db
  else if skipUnchangedCheck state p then skipResultUnchanged db
  else renderStep ctx db notebookId sectionId p

/-- One line `f"{k}: {v}"` of the front-matter block, with the string
value newline-flattened and stripped (exporter.py 31-34). -/
def fmLine (kv : String × String) : Text :=
  str kv.1 ++ str ": " ++ pyStrip (replNl (str kv.2))

/-- `write_front_matter` (exporter.py 29-36). -/
def write_front_matter (info : List (String × String)) : Text :=
  joinNL ([str "---"] ++ info.map fmLine ++ [str "---\n"])

/-- The front-matter fields of a page artifact, in write order
(exporter.py 396-409). -/
def pageFrontMatter (notebookName sectionName sectionId : String)
    (p : PageInput) (contentHash : String) : Text :=
  write_front_matter
    [("notebook", notebookName), ("section", sectionName),
     ("section_id", sectionId), ("title", p.title), ("page_id", p.id),
     ("created", p.created), ("modified", p.modified),
     ("web_url", p.webUrl), ("client_url", p.clientUrl),
     ("content_hash", contentHash)]

/-- The full artifact text `fm + f"# {title}\n\n" + md_body`
(exporter.py 411-412). -/
def mdFullText (notebookName sectionName sectionId : String)
    (p : PageInput) (contentHash : String) : Text :=
  pageFrontMatter notebookName sectionName sectionId p contentHash ++
    str "# " ++ str p.title ++ str "\n\n" ++ p.body

/-! The reconciler's and the aggregation passes' recomputations of the
content fingerprint, named after their code sites. -/

/-- Content hash the reconciler stores for a scanned file
(exporter.py 231). -/
def reconContentHash (ctx : Ctx) (t : Text) : String :=
  ctx.hashContent (reconHashSource t)

/-- Word count the reconciler stores for a scanned file
(exporter.py 232). -/
def reconWordCount (t : Text) : Nat := (pySplitWs (reconHashSource t)).length

/-- Content hash the per-section aggregation pass stores
(exporter.py 511). -/
def sectionPassContentHash (ctx : Ctx) (raw : Text) : String :=
  ctx.hashContent (aggHashSource raw)

/-- Word count the per-section aggregation pass stores
(exporter.py 512). -/
def sectionPassWordCount (raw : Text) : Nat := (pySplitWs (aggHashSource raw)).length

/-- The row the per-section JSONL pass upserts for one page record,
from the file content `raw` it read back (exporter.py 498-529). -/
def sectionPassRow (ctx : Ctx) (raw : Text)
    (pid sectionId notebookId title created modified mdPath jsonlFile : String) :
    PageRow :=
  { id := pid, section_id := sectionId, notebook_id := notebookId,
    title := title, slug := ctx.slugify title, created := created,
    modified := modified, md_path := mdPath, merged_path := "",
    jsonl_path := jsonlFile, content_hash := sectionPassContentHash ctx raw,
    word_count := sectionPassWordCount raw, page_order := 0 }

/-- The row the whole-notebook merge pass upserts for one page record
(exporter.py 580-610); its body recomputation (lines 585-593) is the
same computation as the section pass.  Note the literal empty
`section_id` the source writes at line 597. -/
def mergePassRow (ctx : Ctx) (raw : Text)
    (pid notebookId title created modified mdPath mergedPath jsonlPath : String) :
    PageRow :=
  { id := pid, section_id := "", notebook_id := notebookId,
    title := title, slug := ctx.slugify title, created := created,
    modified := modified, md_path := mdPath, merged_path := mergedPath,
    jsonl_path := jsonlPath, content_hash := ctx.hashContent (aggHashSource raw),
    word_count := (pySplitWs (aggHashSource raw)).length, page_order := 0 }

/-- The record appended to `all_pages_records` for a rendered page
(exporter.py 445-456); `sectionName` embeds the source's `section`
key. -/
structure RecObj where
  notebook : String
  sectionName : String
  title : String
  page_id : String
  created : String
  modified : String
  path : String
  web_url : String
  client_url : String
deriving DecidableEq

/-- Build the `rec_obj` for a page. -/
def recOf (ctx : Ctx) (notebookName sectionName : String) (p : PageInput) : RecObj :=
  { notebook := notebookName, sectionName := sectionName, title := p.title,
    page_id := p.id, created := p.created, modified := p.modified,
    path := mdPathOf ctx p, web_url := p.webUrl, client_url := p.clientUrl }

/-- The page loop over one section's page list, threading the catalog
through and pairing each page with its step result
(exporter.py 331-457). -/
def runPages (ctx : Ctx) (sinceTs : Option Int) (notebookId sectionId : String) :
    Option Catalog → List PageInput → List (PageInput × StepResult)
  | _, [] => []
  | db, p :: ps =>
    let r := processPage ctx sinceTs db notebookId sectionId p
    (p, r) :: runPages ctx sinceTs notebookId sectionId r.db ps

/-- The `all_pages_records` list a run accumulates: exactly the pages
whose step appended a record, in traversal order; `index.json` is the
JSON dump of this list (exporter.py 456, 463-465). -/
def allPagesRecords (ctx : Ctx) (sinceTs : Option Int)
    (notebookName notebookId sectionName sectionId : String)
    (db : Option Catalog) (ps : List PageInput) : List RecObj :=
  (runPages ctx sinceTs notebookId sectionId db ps).filterMap fun pr =>
    if pr.2.recordAdded then some (recOf ctx notebookName sectionName pr.1) else none

/-- One line of the whole-notebook JSONL corpus (exporter.py 557-572):
identifying metadata plus the artifact body read back from disk. -/
structure JsonlObj where
  id : String
  title : String
  notebook : String
  sectionName : String
  created : String
  modified : String
  content : Text
deriving DecidableEq

/-- The whole-notebook JSONL pass over the accumulated records, with
`disk` the read-back of a path's current on-disk content
(exporter.py 556-572). -/
def notebookJsonl (disk : String → Text) (recs : List RecObj) : List JsonlObj :=
  recs.map fun rec =>
    { id := rec.page_id, title := rec.title, notebook := rec.notebook,
      sectionName := rec.sectionName, created := rec.created,
      modified := rec.modified, content := disk rec.path }

/-- A rendered (non-skip) outcome. -/
def isRendered : StepOutcome → Bool
  | .rendered _ => true
  | _ => false

/-! Model of the DOCX branch (exporter.py 538-554).  Python exceptions
are embedded as an inductive; the `try` body raises the first failure
among importing `pypandoc` (ImportError when the library is absent),
evaluating `compiled_md` (NameError when `merge` was off, since that
name is only bound under `if merge:`), and `pypandoc.convert_text`
itself (OSError / RuntimeError).  The `except (OSError, RuntimeError)`
clause turns exactly those two classes into a logged warning. -/

/-- The exception classes relevant to the DOCX branch. -/
inductive PyExc
  | importError
  | nameError
  | osError
  | runtimeError
deriving DecidableEq

/-- Result of the DOCX branch for the whole run. -/
inductive DocxOutcome
  | notRequested
  | converted
  | warned (e : PyExc)
  | aborted (e : PyExc)
deriving DecidableEq

/-- What the `try` body raises, if anything (exporter.py 539-550). -/
def docxTryBody (pypandocAvailable mergeEnabled : Bool)
    (convertResult : Option PyExc) : Option PyExc :=
  if !pypandocAvailable then some .importError
  else if !mergeEnabled then some .nameError
  else convertResult

/-- The whole branch: request gate, `try`, and the
`except (OSError, RuntimeError)` handler (exporter.py 538-554). -/
def docxStep (docxRequested : Bool) (raised : Option PyExc) : DocxOutcome :=
  if docxRequested then
    match raised with
    | none => .converted
    | some e =>
      if e = .osError ∨ e = .runtimeError then .warned e else .aborted e
  else .notRequested

/-! Structural lemmas about the page loop. -/

theorem outOfWindow_eq_true {a b : Option Int} {st : Option PageState} :
    outOfWindow a b st = true ↔
      ∃ sa mb, a = some sa ∧ b = some mb ∧ st = none ∧ mb < sa := by
  cases a <;> cases b <;> cases st <;> simp [outOfWindow]

theorem outOfWindow_state_some {a b : Option Int} {st : Option PageState}
    (s : PageState) (h : st = some s) : outOfWindow a b st = false := by
  subst h
  cases a <;> cases b <;> simp [outOfWindow]

theorem outOfWindow_dt_none {a : Option Int} {st : Option PageState} :
    outOfWindow a none st = false := by
  cases a <;> cases st <;> simp [outOfWindow]

theorem skipUnchangedCheck_none (p : PageInput) : skipUnchangedCheck none p = false := rfl

theorem processPage_of_oow {ctx : Ctx} {sinceTs : Option Int} {db : Option Catalog}
    {notebookId sectionId : String} {p : PageInput}
    (h : outOfWindow sinceTs (modifiedDtOf ctx p.modified) (stateOf db p.id) = true) :
    processPage ctx sinceTs db notebookId sectionId p = skipResultOOW db := by
  simp [processPage, h]

theorem processPage_of_skip {ctx : Ctx} {sinceTs : Option Int} {db : Option Catalog}
    {notebookId sectionId : String} {p : PageInput}
    (h1 : outOfWindow sinceTs (modifiedDtOf ctx p.modified) (stateOf db p.id) = false)
    (h2 : skipUnchangedCheck (stateOf db p.id) p = true) :
    processPage ctx sinceTs db notebookId sectionId p = skipResultUnchanged db := by
  simp [processPage, h1, h2]

theorem processPage_of_render {ctx : Ctx} {sinceTs : Option Int} {db : Option Catalog}
    {notebookId sectionId : String} {p : PageInput}
    (h1 : outOfWindow sinceTs (modifiedDtOf ctx p.modified) (stateOf db p.id) = false)
    (h2 : skipUnchangedCheck (stateOf db p.id) p = false) :
    processPage ctx sinceTs db notebookId sectionId p =
      renderStep ctx db notebookId sectionId p := by
  simp [processPage, h1, h2]

theorem renderStep_fields (ctx : Ctx) (db : Option Catalog)
    (notebookId sectionId : String) (p : PageInput) :
    (∃ c, (renderStep ctx db notebookId sectionId p).outcome = .rendered c)
    ∧ (renderStep ctx db notebookId sectionId p).fetched = true
    ∧ (renderStep ctx db notebookId sectionId p).wroteArtifact = true
    ∧ (renderStep ctx db notebookId sectionId p).recordAdded = true := by
  exact ⟨⟨_, rfl⟩, rfl, rfl, rfl⟩

theorem processPage_recordAdded (ctx : Ctx) (sinceTs : Option Int) (db : Option Catalog)
    (notebookId sectionId : String) (p : PageInput) :
    (processPage ctx sinceTs db notebookId sectionId p).recordAdded =
      isRendered (processPage ctx sinceTs db notebookId sectionId p).outcome := by
  cases hoow : outOfWindow sinceTs (modifiedDtOf ctx p.modified) (stateOf db p.id) with
  | true => rw [processPage_of_oow hoow]; rfl
  | false =>
    cases hchk : skipUnchangedCheck (stateOf db p.id) p with
    | true => rw [processPage_of_skip hoow hchk]; rfl
    | false => rw [processPage_of_render hoow hchk]; rfl

/-! Concrete instances used by witnesses and counterexamples.  The
hash stand-in is injective and never empty, matching the two
properties of a sha256 hexdigest that the engine's control flow can
observe; the parse stand-in maps the ISO strings appearing below to
chronologically ordered integers and rejects everything else. -/

/-- Concrete stand-in for `DBManager.hash_content`. -/
def hash0 : Text → String := fun t => "h:" ++ String.mk t

/-- Concrete stand-in for the timestamp parse. -/
def parse0 : String → Option Int := fun s =>
  if s = "2024-01-01T00:00:00Z" then some 100
  else if s = "2024-05-01T00:00:00Z" then some 500
  else if s = "2024-06-01T00:00:00Z" then some 600
  else none

/-- Concrete helper context. -/
def ctx0 : Ctx := { hashContent := hash0, parseIso := parse0, slugify := fun s => s }

/-- Context whose timestamp parse rejects every string, for
malformed-timestamp scenarios. -/
def ctxBad : Ctx := { hashContent := hash0, parseIso := fun _ => none, slugify := fun s => s }

/-- Fresh page, first seen on 2024-01-01. -/
def page1 : PageInput :=
  { id := "p1", title := "T", created := "", modified := "2024-01-01T00:00:00Z",
    webUrl := "", clientUrl := "", mdPathExists := false,
    body := str "hello\n", assets := [] }

/-- The same page with its artifact present on disk. -/
def page1e : PageInput := { page1 with mdPathExists := true }

/-- Page older than the 2024-06-01 window bound. -/
def pageQ : PageInput :=
  { id := "q1", title := "Q", created := "", modified := "2024-05-01T00:00:00Z",
    webUrl := "", clientUrl := "", mdPathExists := false,
    body := str "old\n", assets := [] }

/-- Page whose modified timestamp equals the 2024-06-01 bound. -/
def pageB : PageInput :=
  { id := "b1", title := "B", created := "", modified := "2024-06-01T00:00:00Z",
    webUrl := "", clientUrl := "", mdPathExists := false,
    body := str "b\n", assets := [] }

/-- Page carrying a malformed modified timestamp. -/
def pageM : PageInput :=
  { id := "m1", title := "M", created := "", modified := "not-a-date",
    webUrl := "", clientUrl := "", mdPathExists := true,
    body := str "m\n", assets := [] }

/-- Catalog row for `page1` with a non-empty stored hash. -/
def rowP : PageRow :=
  { id := "p1", section_id := "s1", notebook_id := "nb1", title := "T",
    slug := "T", created := "", modified := "2024-01-01T00:00:00Z",
    md_path := "pages/T-p1.md", merged_path := "", jsonl_path := "",
    content_hash := "abc", word_count := 1, page_order := 0 }

/-- Catalog holding only `rowP`. -/
def catP : Catalog := { pages := [rowP], assets := [] }

/-- Catalog row for `pageQ`: the page is older than the bound but
already catalogued. -/
def rowOld : PageRow := { rowP with id := "q1", modified := "2024-05-01T00:00:00Z" }

/-- Catalog holding only `rowOld`. -/
def catOld : Catalog := { pages := [rowOld], assets := [] }

/-- Catalog row for `pageM` storing the same malformed string. -/
def rowM : PageRow := { rowP with id := "m1", modified := "not-a-date" }

/-- Catalog holding only `rowM`. -/
def catM : Catalog := { pages := [rowM], assets := [] }

/-- An empty catalog. -/
def catE : Catalog := { pages := [], assets := [] }

/-! A concrete two-run scenario: `page1` exported into an empty
catalog, the per-section aggregation pass re-upserting its row from
the written artifact, commit, then a second run over the same page
with the artifact file deleted (spec scenario C). -/

/-- First run over `page1` against an empty catalog. -/
def run1 : StepResult := processPage ctx0 none (some catE) "nb1" "s1" page1

/-- The artifact file the first run writes (front matter carrying the
render-time hash, the injected heading, then the body). -/
def artifact1 : Text := mdFullText "NB" "Sec" "s1" page1 (hash0 (str "hello\n"))

/-- The catalog after the first run's per-section JSONL pass re-upserts
the page row from the artifact it read back (exporter.py 497-529). -/
def catAfterRun1 : Catalog :=
  match run1.db with
  | some c =>
    let row := sectionPassRow ctx0 artifact1 "p1" "s1" "nb1" "T" ""
      "2024-01-01T00:00:00Z" (mdPathOf ctx0 page1) "sec/section.jsonl"
    { c with pages := upsert_page c.pages row }
  | none => catE

/-- Second run over the same unchanged page after its artifact file was
deleted (`page1.mdPathExists` is false). -/
def run2 : StepResult := processPage ctx0 none (some catAfterRun1) "nb1" "s1" page1


theorem processPage_oow_iff (ctx : Ctx) (sinceTs : Option Int) (db : Option Catalog)
    (notebookId sectionId : String) (p : PageInput) :
    (processPage ctx sinceTs db notebookId sectionId p).outcome = .skipOutOfWindow ↔
      outOfWindow sinceTs (modifiedDtOf ctx p.modified) (stateOf db p.id) = true := by
  cases hoow : outOfWindow sinceTs (modifiedDtOf ctx p.modified) (stateOf db p.id) with
  | true => rw [processPage_of_oow hoow]; simp [skipResultOOW]
  | false =>
    cases hchk : skipUnchangedCheck (stateOf db p.id) p with
    | true => rw [processPage_of_skip hoow hchk]; simp [skipResultUnchanged]
    | false =>
      rw [processPage_of_render hoow hchk]
      obtain ⟨⟨c, hc⟩, -, -, -⟩ := renderStep_fields ctx db notebookId sectionId p
      simp [hc]

theorem processPage_skipUnchanged_iff (ctx : Ctx) (sinceTs : Option Int)
    (db : Option Catalog) (notebookId sectionId : String) (p : PageInput) :
    (processPage ctx sinceTs db notebookId sectionId p).outcome = .skipUnchanged ↔
      skipUnchangedCheck (stateOf db p.id) p = true := by
  cases hoow : outOfWindow sinceTs (modifiedDtOf ctx p.modified) (stateOf db p.id) with
  | true =>
    obtain ⟨sa, mb, -, -, hst, -⟩ := outOfWindow_eq_true.mp hoow
    rw [processPage_of_oow hoow, hst]
    simp [skipResultOOW, skipUnchangedCheck]
  | false =>
    cases hchk : skipUnchangedCheck (stateOf db p.id) p with
    | true => rw [processPage_of_skip hoow hchk]; simp [skipResultUnchanged]
    | false =>
      rw [processPage_of_render hoow hchk]
      obtain ⟨⟨c, hc⟩, -, -, -⟩ := renderStep_fields ctx db notebookId sectionId p
      simp [hc]

/-! Claim theorems. -/

/-- C1 (counterexample): the claim's clause "if any one of these
conditions fails the page is fetched and re-rendered" is false: with a
lower bound of 2024-06-01, page q1 (modified 2024-05-01, no catalog
row) fails the skip-unchanged conditions yet is not fetched and no
artifact is written -- it is skipped by the out-of-window rule
instead. -/
theorem C1_counterexample :
    skipUnchangedCheck (stateOf (some catE) pageQ.id) pageQ = false
    ∧ (processPage ctx0 (some 600) (some catE) "nb1" "s1" pageQ).fetched = false
    ∧ (processPage ctx0 (some 600) (some catE) "nb1" "s1" pageQ).wroteArtifact = false := by
  decide

/-- C1 (amended): a page is classified skip-unchanged iff a catalog
row exists with the same modified string, a non-empty stored hash, and
the artifact present; a skip-unchanged page is left entirely untouched
(no fetch, no write, catalog unchanged); and a page failing the
conditions is fetched and re-rendered unless it is skipped by the
out-of-window rule. -/
theorem C1_skip_unchanged_correct (ctx : Ctx) (sinceTs : Option Int)
    (db : Option Catalog) (notebookId sectionId : String) (p : PageInput) :
    ((processPage ctx sinceTs db notebookId sectionId p).outcome = .skipUnchanged
      ↔ skipUnchangedCheck (stateOf db p.id) p = true)
    ∧ ((processPage ctx sinceTs db notebookId sectionId p).outcome = .skipUnchanged →
      processPage ctx sinceTs db notebookId sectionId p = skipResultUnchanged db)
    ∧ (skipUnchangedCheck (stateOf db p.id) p = false →
      (processPage ctx sinceTs db notebookId sectionId p).outcome = .skipOutOfWindow
      ∨ ((processPage ctx sinceTs db notebookId sectionId p).fetched = true
          ∧ (processPage ctx sinceTs db notebookId sectionId p).wroteArtifact = true)) := by
  refine ⟨processPage_skipUnchanged_iff ctx sinceTs db notebookId sectionId p, ?_, ?_⟩
  · intro h
    cases hoow : outOfWindow sinceTs (modifiedDtOf ctx p.modified) (stateOf db p.id) with
    | true => rw [processPage_of_oow hoow] at h ⊢; cases h
    | false =>
      cases hchk : skipUnchangedCheck (stateOf db p.id) p with
      | true => exact processPage_of_skip hoow hchk
      | false =>
        rw [processPage_of_render hoow hchk] at h
        obtain ⟨⟨c, hc⟩, -, -, -⟩ := renderStep_fields ctx db notebookId sectionId p
        rw [hc] at h
        cases h
  · intro hchk
    cases hoow : outOfWindow sinceTs (modifiedDtOf ctx p.modified) (stateOf db p.id) with
    | true => left; rw [processPage_of_oow hoow]; rfl
    | false =>
      right
      rw [processPage_of_render hoow hchk]
      obtain ⟨-, hf, hw, -⟩ := renderStep_fields ctx db notebookId sectionId p
      exact ⟨hf, hw⟩

/-- C1 (witness): page p1, unchanged modified string, non-empty stored
hash, artifact on disk -- classified skip-unchanged with no fetch, no
write, and the catalog left as it was. -/
theorem C1_witness :
    skipUnchangedCheck (stateOf (some catP) page1e.id) page1e = true
    ∧ processPage ctx0 none (some catP) "nb1" "s1" page1e = skipResultUnchanged (some catP) :=
  ⟨by decide,
   (C1_skip_unchanged_correct ctx0 none (some catP) "nb1" "s1" page1e).2.1
     ((C1_skip_unchanged_correct ctx0 none (some catP) "nb1" "s1" page1e).1.mpr (by decide))⟩

/-- C2: for every artifact file content, the row the index-only
reconciler derives carries exactly the content hash and word count
that the live-export path computes and stores for that file via its
aggregation pass (both recomputations exclude the front matter and the
injected title heading by the same algorithm). -/
theorem C2_reconciliation_roundtrip (ctx : Ctx) (t : Text)
    (pid sectionId notebookId title created modified mdPath jsonlFile : String) :
    reconContentHash ctx t =
      (sectionPassRow ctx t pid sectionId notebookId title created modified
        mdPath jsonlFile).content_hash
    ∧ reconWordCount t =
      (sectionPassRow ctx t pid sectionId notebookId title created modified
        mdPath jsonlFile).word_count := by
  constructor
  · show ctx.hashContent (reconHashSource t) = ctx.hashContent (aggHashSource t)
    rw [reconHashSource_eq_aggHashSource]
  · show (pySplitWs (reconHashSource t)).length = (pySplitWs (aggHashSource t)).length
    rw [reconHashSource_eq_aggHashSource]

/-- C3: with a lower bound configured, a page whose timestamp parses
exactly to the bound is never skip-out-of-window; a page with a prior
catalog row is never skip-out-of-window; and any skip-out-of-window
page has a parsed timestamp strictly below the bound, no prior row,
and nothing fetched, written, or changed in the catalog. -/
theorem C3_window_boundary (ctx : Ctx) (b : Int) (db : Option Catalog)
    (notebookId sectionId : String) (p : PageInput) :
    (ctx.parseIso p.modified = some b →
      (processPage ctx (some b) db notebookId sectionId p).outcome ≠ .skipOutOfWindow)
    ∧ (∀ s : PageState, stateOf db p.id = some s →
      (processPage ctx (some b) db notebookId sectionId p).outcome ≠ .skipOutOfWindow)
    ∧ ((processPage ctx (some b) db notebookId sectionId p).outcome = .skipOutOfWindow →
      (∃ m, modifiedDtOf ctx p.modified = some m ∧ m < b)
      ∧ stateOf db p.id = none
      ∧ processPage ctx (some b) db notebookId sectionId p = skipResultOOW db) := by
  refine ⟨?_, ?_, ?_⟩
  · intro hp hout
    obtain ⟨sa, mb, hsa, hmb, -, hlt⟩ :=
      outOfWindow_eq_true.mp ((processPage_oow_iff ctx (some b) db notebookId sectionId p).mp hout)
    obtain rfl : b = sa := Option.some.inj hsa
    unfold modifiedDtOf at hmb
    by_cases hm : p.modified = ""
    · rw [if_pos hm] at hmb; cases hmb
    · rw [if_neg hm, hp] at hmb
      obtain rfl : b = mb := Option.some.inj hmb
      exact absurd hlt (lt_irrefl b)
  · intro s hs hout
    obtain ⟨sa, mb, -, -, hst, -⟩ :=
      outOfWindow_eq_true.mp ((processPage_oow_iff ctx (some b) db notebookId sectionId p).mp hout)
    rw [hs] at hst
    cases hst
  · intro hout
    have hoow := (processPage_oow_iff ctx (some b) db notebookId sectionId p).mp hout
    obtain ⟨sa, mb, hsa, hmb, hst, hlt⟩ := outOfWindow_eq_true.mp hoow
    obtain rfl : b = sa := Option.some.inj hsa
    exact ⟨⟨mb, hmb, hlt⟩, hst, processPage_of_oow hoow⟩

/-- C3 (witness): the boundary page (modified exactly 2024-06-01, the
bound) is not skipped out-of-window; neither is the older page q1 once
it has a catalog row; and the older uncatalogued page q1 is skipped
out-of-window with nothing written and the catalog unchanged. -/
theorem C3_witness :
    ((processPage ctx0 (some 600) (some catE) "nb1" "s1" pageB).outcome ≠ .skipOutOfWindow)
    ∧ ((processPage ctx0 (some 600) (some catOld) "nb1" "s1" pageQ).outcome ≠ .skipOutOfWindow)
    ∧ ((∃ m, modifiedDtOf ctx0 pageQ.modified = some m ∧ m < 600)
        ∧ stateOf (some catE) pageQ.id = none
        ∧ processPage ctx0 (some 600) (some catE) "nb1" "s1" pageQ = skipResultOOW (some catE)) :=
  ⟨(C3_window_boundary ctx0 600 (some catE) "nb1" "s1" pageB).1 (by decide),
   (C3_window_boundary ctx0 600 (some catOld) "nb1" "s1" pageQ).2.1
     ⟨"q1", "2024-05-01T00:00:00Z", "abc"⟩ (by decide),
   (C3_window_boundary ctx0 600 (some catE) "nb1" "s1" pageQ).2.2 (by decide)⟩

/-- C4 (code bug, evaluated at the failing input): page p1 is exported
into an empty catalog (classified created); the section-JSONL pass
re-upserts its row with the hash of the re-parsed body, which is
"\nhello" rather than the rendered body "hello\n"; after the artifact
is deleted, the repair re-run of the unchanged page recomputes the
hash of "hello\n", sees it differ from the stored one, and counts the
page as updated -- not as unchanged/skipped as the claim states. -/
theorem C4_repair_render_counted_updated :
    run1.outcome = .rendered .created
    ∧ aggHashSource artifact1 = str "\nhello"
    ∧ stateOf (some catAfterRun1) page1.id =
        some ⟨"p1", "2024-01-01T00:00:00Z", hash0 (str "\nhello")⟩
    ∧ hash0 (str "\nhello") ≠ ""
    ∧ hash0 (str "\nhello") ≠ hash0 page1.body
    ∧ run2.outcome = .rendered .updated := by
  decide

/-- The page row the render step stored for page p1 before any
aggregation pass touches it. -/
def rowRendered1 : PageRow :=
  { id := "p1", section_id := "s1", notebook_id := "nb1", title := "T",
    slug := "T", created := "", modified := "2024-01-01T00:00:00Z",
    md_path := "pages/T-p1.md", merged_path := "", jsonl_path := "",
    content_hash := hash0 (str "hello\n"), word_count := 1, page_order := 0 }

/-- C5 (code bug, evaluated at the failing input): the aggregation
passes do not only update the aggregate-path fields.  The merge pass
upserts the page row with a literal empty section_id, overwriting the
stored "s1" (the upsert replaces every field), and the section pass
stores a content hash computed from a different string than the
rendered body, changing the row's content_hash value. -/
theorem C5_aggregation_not_frame_preserving (ctx : Ctx) (raw : Text) :
    ((upsert_page [rowRendered1]
        (mergePassRow ctx raw "p1" "nb1" "T" "" "2024-01-01T00:00:00Z"
          "pages/T-p1.md" "nb-compiled.md" "nb-pages.jsonl")).map PageRow.section_id) = [""]
    ∧ rowRendered1.section_id = "s1"
    ∧ (sectionPassRow ctx0 artifact1 "p1" "s1" "nb1" "T" "" "2024-01-01T00:00:00Z"
        "pages/T-p1.md" "sec/section.jsonl").content_hash ≠ rowRendered1.content_hash := by
  refine ⟨rfl, rfl, ?_⟩
  show sectionPassContentHash ctx0 artifact1 ≠ rowRendered1.content_hash
  decide

/-- C6 (counterexample): a page whose modified timestamp "not-a-date"
is unparsable is nevertheless classified skip-unchanged, because the
unchanged check compares the stored and current timestamp strings
verbatim -- the claim's "never skipped by the skip-unchanged rule" is
false. -/
theorem C6_counterexample :
    ctxBad.parseIso pageM.modified = none
    ∧ (processPage ctxBad (some 0) (some catM) "nb1" "s1" pageM).outcome = .skipUnchanged := by
  decide

/-- C6 (amended): an unparsable modified timestamp forces the page
past the out-of-window rule (it is never skip-out-of-window), but the
skip-unchanged rule still applies by exact string comparison: the page
is skip-unchanged iff a catalog row stores the identical modified
string with a non-empty hash and the artifact present; otherwise it is
rendered. -/
theorem C6_malformed_timestamp (ctx : Ctx) (sinceTs : Option Int)
    (db : Option Catalog) (notebookId sectionId : String) (p : PageInput)
    (h : ctx.parseIso p.modified = none) :
    (processPage ctx sinceTs db notebookId sectionId p).outcome ≠ .skipOutOfWindow
    ∧ ((processPage ctx sinceTs db notebookId sectionId p).outcome = .skipUnchanged
      ↔ skipUnchangedCheck (stateOf db p.id) p = true) := by
  have hdt : modifiedDtOf ctx p.modified = none := by
    unfold modifiedDtOf
    split
    · rfl
    · exact h
  constructor
  · intro hout
    have hoow := (processPage_oow_iff ctx sinceTs db notebookId sectionId p).mp hout
    rw [hdt, outOfWindow_dt_none] at hoow
    cases hoow
  · exact processPage_skipUnchanged_iff ctx sinceTs db notebookId sectionId p

/-- C6 (witness): the malformed-timestamp page with a differing stored
string is not skipped by the out-of-window rule and is rendered (not
skip-unchanged). -/
theorem C6_witness :
    ctxBad.parseIso pageM.modified = none
    ∧ (processPage ctxBad (some 0) (some catE) "nb1" "s1" pageM).outcome ≠ .skipOutOfWindow :=
  ⟨by decide, (C6_malformed_timestamp ctxBad (some 0) (some catE) "nb1" "s1" pageM (by decide)).1⟩

/-- A pre-existing asset row of page p1. -/
def assetRowOld : AssetRow :=
  { page_id := "p1", rel_path := "assets/p1/old.png", mime_type := "image/png",
    size_bytes := 3, sha256 := "aaa" }

/-- A freshly collected asset record for page p1. -/
def assetRecNew : AssetRec :=
  { rel_path := "assets/p1/new.png", mime_type := "image/png",
    size_bytes := 4, sha256 := "bbb" }

/-- C7 (counterexample): re-rendering page p1 with an empty
collected-asset list leaves its old asset row in place -- the
`if collected_assets:` guard skips the delete-then-reinsert, so the
claim's "for every collected-asset list including the empty list" is
false. -/
theorem C7_counterexample :
    exporterAssetsUpdate [assetRowOld] "p1" [] = [assetRowOld]
    ∧ assetRowOld.page_id = "p1" := by
  decide

/-- C7 (amended): on a re-render with a nonempty collected-asset list,
the asset rows of the page are wholesale replaced: every prior row of
the page is deleted and the collected records with a non-empty
rel_path are inserted, never merged field-by-field; an empty collected
list performs no replacement at all. -/
theorem C7_wholesale_replace (tbl : List AssetRow) (pid : String)
    (collected : List AssetRec) (h : collected ≠ []) :
    exporterAssetsUpdate tbl pid collected =
      (tbl.filter fun a => !(a.page_id == pid)) ++
        (collected.filter fun a => !(a.rel_path == "")).map
          (fun a => ⟨pid, a.rel_path, a.mime_type, a.size_bytes, a.sha256⟩) := by
  cases collected with
  | nil => exact absurd rfl h
  | cons a as => rfl

/-- C7 (witness): replacing page p1's single old asset row with one
collected record yields exactly the new row tagged with the page id. -/
theorem C7_witness :
    ([assetRecNew] ≠ [])
    ∧ exporterAssetsUpdate [assetRowOld] "p1" [assetRecNew] =
      (([assetRowOld].filter fun a => !(a.page_id == "p1")) ++
        ([assetRecNew].filter fun a => !(a.rel_path == "")).map
          (fun a => ⟨"p1", a.rel_path, a.mime_type, a.size_bytes, a.sha256⟩)) :=
  ⟨by decide, C7_wholesale_replace [assetRowOld] "p1" [assetRecNew] (by decide)⟩

/-- C8 (counterexample): an incremental re-run over a one-page
notebook whose single page is classified skip-unchanged produces an
empty `all_pages_records`, so index.json contains no record for that
page -- the claim's "one record per page of the notebook ... including
incremental re-runs" is false (skipped pages are omitted). -/
theorem C8_counterexample :
    allPagesRecords ctx0 none "NB" "nb1" "Sec" "s1" (some catP) [page1e] = []
    ∧ [page1e].length = 1 := by
  decide

/-- C8 (amended): after a run, index.json is the array holding one
record per page rendered in this run, in traversal order -- pages
skipped as out-of-window or unchanged are omitted -- and the
whole-notebook JSONL stream holds, per such record, its identifying
metadata plus the body read back from disk at its artifact path. -/
theorem C8_index_lists_rendered_pages (ctx : Ctx) (sinceTs : Option Int)
    (notebookName notebookId sectionName sectionId : String)
    (db : Option Catalog) (ps : List PageInput) (disk : String → Text) :
    allPagesRecords ctx sinceTs notebookName notebookId sectionName sectionId db ps =
      ((runPages ctx sinceTs notebookId sectionId db ps).filter fun pr =>
        isRendered pr.2.outcome).map (fun pr => recOf ctx notebookName sectionName pr.1)
    ∧ notebookJsonl disk
        (allPagesRecords ctx sinceTs notebookName notebookId sectionName sectionId db ps) =
      (allPagesRecords ctx sinceTs notebookName notebookId sectionName sectionId db ps).map
        (fun rec =>
          { id := rec.page_id, title := rec.title, notebook := rec.notebook,
            sectionName := rec.sectionName, created := rec.created,
            modified := rec.modified, content := disk rec.path }) := by
  constructor
  · unfold allPagesRecords
    induction ps generalizing db with
    | nil => rfl
    | cons p ps ih =>
      have hr := processPage_recordAdded ctx sinceTs db notebookId sectionId p
      cases hre : isRendered (processPage ctx sinceTs db notebookId sectionId p).outcome with
      | true =>
        rw [hre] at hr
        simp [runPages, List.filterMap_cons, List.filter_cons, hr, hre, ih]
      | false =>
        rw [hre] at hr
        simp [runPages, List.filterMap_cons, List.filter_cons, hr, hre, ih]
  · rfl

/-- C9 (code bug, evaluated at the failing inputs): when DOCX output is
requested, an unavailable conversion library raises ImportError inside
the `try` and `except (OSError, RuntimeError)` does not catch it, so
the run aborts instead of logging a warning (likewise the NameError on
`compiled_md` when merge is off); only OSError and RuntimeError from
the converter are caught and logged, letting the run complete. -/
theorem C9_docx_failure_handling :
    docxStep true (docxTryBody false true none) = .aborted .importError
    ∧ docxStep true (docxTryBody true false none) = .aborted .nameError
    ∧ docxStep true (docxTryBody true true (some .osError)) = .warned .osError
    ∧ docxStep true (docxTryBody true true (some .runtimeError)) = .warned .runtimeError
    ∧ docxStep true (docxTryBody true true none) = .converted := by
  decide

/-- C10: with the catalog disabled or the catalog module unavailable
(no db), any page that is not skipped by the time-window filter is
fetched and fully re-rendered, is classified neither skip-unchanged
nor repair (no counter at all), and the content_hash written into its
front matter is the empty string. -/
theorem C10_no_catalog_always_renders (ctx : Ctx) (sinceTs : Option Int)
    (notebookId sectionId : String) (p : PageInput)
    (h : (processPage ctx sinceTs none notebookId sectionId p).outcome ≠ .skipOutOfWindow) :
    processPage ctx sinceTs none notebookId sectionId p =
      { outcome := .rendered .nothing, fetched := true, wroteArtifact := true,
        fmContentHash := "", db := none, recordAdded := true } := by
  cases hoow : outOfWindow sinceTs (modifiedDtOf ctx p.modified)
      (stateOf (none : Option Catalog) p.id) with
  | true => exact absurd (by rw [processPage_of_oow hoow]; rfl) h
  | false =>
    have hchk : skipUnchangedCheck (stateOf (none : Option Catalog) p.id) p = false := rfl
    rw [processPage_of_render hoow hchk]
    rfl

/-- C10 (witness): page p1 processed with no catalog is rendered with
no counter and an empty front-matter hash. -/
theorem C10_witness :
    (processPage ctx0 none none "nb1" "s1" page1).outcome ≠ .skipOutOfWindow
    ∧ processPage ctx0 none none "nb1" "s1" page1 =
      { outcome := .rendered .nothing, fetched := true, wroteArtifact := true,
        fmContentHash := "", db := none, recordAdded := true } :=
  ⟨by decide, C10_no_catalog_always_renders ctx0 none "nb1" "s1" page1 (by decide)⟩

end ONE
